import Mathlib

/-!
Verification of the PostOp-RN real-time pose pipeline (src/App.tsx).

The development shallowly embeds the code of `App.tsx`:
* the compile-time constants and the orientation / platform / camera flags;
* the pure coordinate transform of `renderPose` (lines 91-109);
* one iteration of the frame loop `loop` (lines 49-71) as a pure function
  of its inputs (model present?, tensor present?, estimation outcome,
  measured latency);
* the mount sequence of the first `useEffect` (lines 119-153) as a list of
  state updates;
* the frame-loop scheduling / cancellation protocol (`loop`, `rafId`, the
  cleanup effect at lines 155-163) as a small-step transition system.

JavaScript numbers that carry coordinates and scores are modelled as `ℚ`;
millisecond timestamps and animation-frame ids as `ℕ`.
-/

namespace PostOp

/-- The two platform families of `Platform.OS` relevant to the code
(`IS_ANDROID` / `IS_IOS`, App.tsx lines 12-13). -/
inductive Platform
  | ios
  | android
deriving DecidableEq, Repr

/-- `expo-camera` camera facing (`CameraType.front` / `CameraType.back`). -/
inductive CameraType
  | front
  | back
deriving DecidableEq, Repr

/-- The `expo-screen-orientation` orientation enumeration. -/
inductive Orientation
  | unknown
  | portraitUp
  | portraitDown
  | landscapeLeft
  | landscapeRight
deriving DecidableEq, Repr

/-- `IS_ANDROID` (App.tsx line 12), parametrised by the platform the app
runs on. -/
def IS_ANDROID : Platform → Bool
  | Platform.android => true
  | Platform.ios => false

/-- `IS_IOS` (App.tsx line 13). -/
def IS_IOS : Platform → Bool
  | Platform.android => false
  | Platform.ios => true

/-- `isPortrait()` (App.tsx lines 74-76).  The React state `orientation`
starts out `undefined`, hence the `Option`. -/
def isPortrait (o : Option Orientation) : Bool :=
  decide (o = some Orientation.portraitUp) || decide (o = some Orientation.portraitDown)

/-- `OUTPUT_TENSOR_WIDTH` (App.tsx line 28). -/
def OUTPUT_TENSOR_WIDTH : ℚ := 180

/-- `OUTPUT_TENSOR_HEIGHT` (App.tsx line 29):
`OUTPUT_TENSOR_WIDTH / (IS_IOS ? 9 / 16 : 3 / 4)`. -/
def OUTPUT_TENSOR_HEIGHT (p : Platform) : ℚ :=
  OUTPUT_TENSOR_WIDTH / (if IS_IOS p then 9 / 16 else 3 / 4)

/-- `CAM_PREVIEW_HEIGHT` (App.tsx line 22), as a function of the window
width `CAM_PREVIEW_WIDTH`. -/
def CAM_PREVIEW_HEIGHT (p : Platform) (camPreviewWidth : ℚ) : ℚ :=
  camPreviewWidth / (if IS_IOS p then 9 / 16 else 3 / 4)

/-- `MIN_KEYPOINT_SCORE` (App.tsx line 31). -/
def MIN_KEYPOINT_SCORE : ℚ := 3 / 10

/-- A pose-detection keypoint: position in model-output space, an optional
confidence score and an optional landmark name. -/
structure Keypoint where
  x : ℚ
  y : ℚ
  score : Option ℚ
  name : Option String
deriving DecidableEq, Repr

/-- A detected pose: its keypoints and an optional overall score. -/
structure Pose where
  keypoints : List Keypoint
  score : Option ℚ
deriving DecidableEq, Repr

/-- `k.score ?? 0` (App.tsx line 94): an absent score is treated as `0`. -/
def scoreOrZero (k : Keypoint) : ℚ := k.score.getD 0

/-- `getOutputTensorWidth()` (App.tsx lines 78-85). -/
def getOutputTensorWidth (p : Platform) (o : Option Orientation) : ℚ :=
  if isPortrait o || IS_ANDROID p then OUTPUT_TENSOR_WIDTH else OUTPUT_TENSOR_HEIGHT p

/-- `getOutputTensorHeight()` (App.tsx lines 87-89). -/
def getOutputTensorHeight (p : Platform) (o : Option Orientation) : ℚ :=
  if isPortrait o || IS_ANDROID p then OUTPUT_TENSOR_HEIGHT p else OUTPUT_TENSOR_WIDTH

/-- `flipX` (App.tsx line 97): flip horizontally on Android, or when using
the back camera. -/
def flipX (p : Platform) (cam : CameraType) : Bool :=
  IS_ANDROID p || decide (cam = CameraType.back)

/-- The horizontal mirror `getOutputTensorWidth() - k.x` (App.tsx line 98). -/
def mirrorX (outW x : ℚ) : ℚ := outW - x

/-- `const x = flipX ? getOutputTensorWidth() - k.x : k.x` (App.tsx line 98). -/
def mirroredX (p : Platform) (cam : CameraType) (outW x : ℚ) : ℚ :=
  if flipX p cam then mirrorX outW x else x

/-- One rendered `<Circle>` overlay element (App.tsx line 102). -/
structure SvgCircle where
  cx : ℚ
  cy : ℚ
  keyName : Option String
deriving DecidableEq, Repr

/-- The body of the `.map` in `renderPose` (App.tsx lines 95-103): mirror,
then scale from output-tensor space to preview pixels. -/
def transformKeypoint (p : Platform) (cam : CameraType) (o : Option Orientation)
    (camPreviewWidth : ℚ) (k : Keypoint) : SvgCircle :=
  let x := mirroredX p cam (getOutputTensorWidth p o) k.x
  let y := k.y
  { cx := x / getOutputTensorWidth p o *
      (if isPortrait o then camPreviewWidth else CAM_PREVIEW_HEIGHT p camPreviewWidth)
    cy := y / getOutputTensorHeight p o *
      (if isPortrait o then CAM_PREVIEW_HEIGHT p camPreviewWidth else camPreviewWidth)
    keyName := k.name }

/-- The `.filter` in `renderPose` (App.tsx line 94): keep keypoints whose
score (absent treated as 0) exceeds `MIN_KEYPOINT_SCORE`. -/
def survivingKeypoints (ks : List Keypoint) : List Keypoint :=
  ks.filter (fun k => decide (MIN_KEYPOINT_SCORE < scoreOrZero k))

/-- `renderPose()` (App.tsx lines 91-109), returning the list of circle
overlay elements it draws (the `else` branch draws nothing). -/
def renderPose (p : Platform) (cam : CameraType) (o : Option Orientation)
    (camPreviewWidth : ℚ) (poses : Option (List Pose)) : List SvgCircle :=
  match poses with
  | some (pose :: _) =>
      (survivingKeypoints pose.keypoints).map (transformKeypoint p cam o camPreviewWidth)
  | _ => []

/-- `Math.floor(1000 / latency)` (App.tsx line 56) for a positive integer
latency in milliseconds; `Nat` division is floored division. -/
def fpsOf (latencyMs : Nat) : Nat := 1000 / latencyMs

/-- Observable outcome of one invocation of `loop` (App.tsx lines 49-70),
up to (not including) the scheduling check at line 60. -/
structure IterResult where
  estimateCalls : Nat
  disposeCalls : Nat
  fpsSet : Option Nat
  posesSet : Option (List Pose)
  errored : Bool
deriving DecidableEq, Repr

/-- One iteration of `loop` (App.tsx lines 49-70) as a pure function.
`hasModel` is `model != null` (line 52), `hasTensor` is
`images.next().value != null`, `est` is the outcome of
`model.estimatePoses` (`none` = the promise rejects), `latencyMs` is the
measured wall-clock latency.  The iteration follows the source order:
acquire the tensor; throw if model or tensor is missing; call
`estimatePoses`; set fps and poses; `tf.dispose([imageTensor])`. -/
def runIteration (hasModel hasTensor : Bool) (est : Option (List Pose))
    (latencyMs : Nat) : IterResult :=
  if !hasModel || !hasTensor then
    { estimateCalls := 0, disposeCalls := 0, fpsSet := none, posesSet := none, errored := true }
  else
    match est with
    | none =>
        { estimateCalls := 1, disposeCalls := 0, fpsSet := none, posesSet := none,
          errored := true }
    | some ps =>
        { estimateCalls := 1, disposeCalls := 1, fpsSet := some (fpsOf latencyMs),
          posesSet := some ps, errored := false }

/-- The component state touched by the mount effect (App.tsx lines
119-153). -/
structure AppState where
  tfReady : Bool
  hasModel : Bool
  orientation : Option Orientation
deriving DecidableEq, Repr

/-- State before the mount effect runs: `tfReady = false`, no model, no
orientation yet. -/
def initialAppState : AppState := { tfReady := false, hasModel := false, orientation := none }

/-- The state updates performed by the mount effect, in source order. -/
inductive MountStep
  | setOrientationVal (o : Orientation)
  | setTfReadyTrue
  | setModelLoaded
deriving DecidableEq, Repr

/-- Effect of a single mount-effect state update. -/
def applyMountStep : MountStep → AppState → AppState
  | MountStep.setOrientationVal o, s => { s with orientation := some o }
  | MountStep.setTfReadyTrue, s => { s with tfReady := true }
  | MountStep.setModelLoaded, s => { s with hasModel := true }

/-- The mount effect (App.tsx lines 119-153) in source order:
`setOrientation` (line 124), then `setTfReady(true)` (line 133, right
after `tf.ready()`), then — only if `createDetector` succeeds —
`setModel` (line 148). -/
def mountSequence (o : Orientation) (modelLoads : Bool) : List MountStep :=
  [MountStep.setOrientationVal o, MountStep.setTfReadyTrue] ++
    (if modelLoads then [MountStep.setModelLoaded] else [])

/-- Run a list of mount-effect updates. -/
def runMount (steps : List MountStep) (s : AppState) : AppState :=
  steps.foldl (fun s e => applyMountStep e s) s

/-- `{tfReady && <TensorCamera ... onReady={handleCameraStream} />}`
(App.tsx lines 168-181): the camera — whose `onReady` callback starts the
frame loop — is mounted exactly when `tfReady` holds. -/
def cameraShown (s : AppState) : Bool := s.tfReady

/-- State of the frame-loop scheduling / cancellation protocol.
`rafId` is `rafId.current` (`none` = `null`, `some 0` = the cancellation
sentinel written by the cleanup effect); `pending` holds the ids of
animation-frame callbacks that have been requested but have not fired;
`inflight` counts iterations that have acquired their tensor and are
suspended at the `estimatePoses` await (equivalently: tensors acquired but
not yet disposed); `started` records whether `handleCameraStream` has
invoked `loop()`; `cancelled` records whether the unmount cleanup has run;
`estimates` counts calls to `estimatePoses`; `nextId` is the next fresh
animation-frame id (browser/React-Native ids start at 1). -/
structure LoopState where
  rafId : Option Nat
  pending : List Nat
  inflight : Nat
  started : Bool
  cancelled : Bool
  estimates : Nat
  nextId : Nat
deriving DecidableEq, Repr

/-- State at mount: `rafId.current = null` (App.tsx line 121), nothing
scheduled, nothing running. -/
def initLoop : LoopState :=
  { rafId := none, pending := [], inflight := 0, started := false, cancelled := false,
    estimates := 0, nextId := 1 }

/-- Atomic events of the frame-loop protocol.  The JavaScript event loop
serialises them; an iteration of `loop` splits at its single `await` into
the segment that acquires the tensor and calls `estimatePoses`
(`startLoop` / `frameFire`) and the segment after the await that sets
state, disposes the tensor, checks `rafId.current === 0` and possibly
schedules the next frame (`iterFinish`).  `cancel` is the unmount cleanup
(App.tsx lines 155-163).  The machine models the success path of an
iteration (model and tensor available, estimation succeeds), the normal
operation the spec quantifies over. -/
inductive Ev
  | startLoop
  | iterFinish
  | frameFire (i : Nat)
  | cancel
deriving DecidableEq, Repr

/-- Small-step semantics of the frame-loop protocol.  `none` means the
event is not enabled in the given state. -/
def stepEv : Ev → LoopState → Option LoopState
  | Ev.startLoop, s =>
      if s.started then none
      else some { s with started := true, inflight := s.inflight + 1,
                         estimates := s.estimates + 1 }
  | Ev.iterFinish, s =>
      if s.inflight = 0 then none
      else if s.rafId = some 0 then
        some { s with inflight := s.inflight - 1 }
      else
        some { s with inflight := s.inflight - 1, rafId := some s.nextId,
                      pending := s.pending ++ [s.nextId], nextId := s.nextId + 1 }
  | Ev.frameFire i, s =>
      if i ∈ s.pending then
        some { s with pending := s.pending.erase i, inflight := s.inflight + 1,
                      estimates := s.estimates + 1 }
      else none
  | Ev.cancel, s =>
      if s.cancelled then none
      else
        match s.rafId with
        | none => some { s with cancelled := true }
        | some n =>
            if n = 0 then some { s with cancelled := true }
            else some { s with cancelled := true, rafId := some 0,
                               pending := s.pending.erase n }

/-- Run a list of events from a state; fails if some event is not
enabled. -/
def runEvents : List Ev → LoopState → Option LoopState
  | [], s => some s
  | e :: es, s =>
      match stepEv e s with
      | none => none
      | some s' => runEvents es s'

/-- Reachability invariant of the frame-loop protocol. -/
def LoopInv (s : LoopState) : Prop :=
  (∀ i ∈ s.pending, s.rafId = some i) ∧
  (s.cancelled = false → s.rafId ≠ some 0) ∧
  (s.started = false →
    s.inflight = 0 ∧ s.pending = [] ∧ s.estimates = 0 ∧ s.rafId = none) ∧
  s.inflight + s.pending.length ≤ 1 ∧
  (s.rafId ≠ none → s.started = true) ∧
  1 ≤ s.nextId

/-- Dead states: after an effective cancellation nothing is pending, the
handle holds the sentinel, and every event is either disabled or leaves
the state (and the estimate count) unchanged. -/
def LoopDead (s : LoopState) : Prop :=
  s.rafId = some 0 ∧ s.pending = [] ∧ s.started = true ∧ s.cancelled = true

/-- Formalises the claim's phrase "the device is in a landscape
orientation" over the orientation enumeration. -/
def isLandscapeOrientation (o : Option Orientation) : Bool :=
  decide (o = some Orientation.landscapeLeft) || decide (o = some Orientation.landscapeRight)

/-- C9: applying the horizontal mirror transformation twice returns the
original x-coordinate: `outputWidth − (outputWidth − x) = x` for every
x-coordinate and every fixed output width. -/
theorem c9_mirror_involution (outW x : ℚ) : mirrorX outW (mirrorX outW x) = x := by
  simp [mirrorX]

/-- C6: the keypoint x-coordinate is mirrored to `outputWidth − x` exactly
when the platform is Android (which mirrors its front camera by
convention) or the active camera is rear-facing; otherwise it passes
through unchanged. -/
theorem c6_mirroring_condition (p : Platform) (cam : CameraType) (outW x : ℚ) :
    mirroredX p cam outW x =
      if p = Platform.android ∨ cam = CameraType.back then outW - x else x := by
  cases p <;> cases cam <;> simp [mirroredX, flipX, mirrorX, IS_ANDROID]

/-- C4: the render stage maps exactly the keypoints of the first pose that
survive the score filter, and a keypoint whose score (absent treated as 0)
is ≤ 0.3 is excluded while one with score > 0.3 appears exactly as often
as it occurs in the pose (hence exactly once for a pose listing it once). -/
theorem c4_threshold_filter (p : Platform) (cam : CameraType) (o : Option Orientation)
    (w : ℚ) (ks : List Keypoint) (sc : Option ℚ) (rest : List Pose) (k : Keypoint) :
    renderPose p cam o w (some (⟨ks, sc⟩ :: rest)) =
      (survivingKeypoints ks).map (transformKeypoint p cam o w) ∧
    (survivingKeypoints ks).count k =
      (if MIN_KEYPOINT_SCORE < scoreOrZero k then ks.count k else 0) := by
  refine ⟨rfl, ?_⟩
  by_cases hk : MIN_KEYPOINT_SCORE < scoreOrZero k
  · rw [if_pos hk]
    exact List.count_filter (by simpa using hk)
  · rw [if_neg hk]
    refine List.count_eq_zero.mpr ?_
    intro hmem
    rw [survivingKeypoints, List.mem_filter] at hmem
    exact hk (by simpa using hmem.2)

/-- C10: with no pose list or an empty pose list the overlay renderer
draws no circles; with a non-empty list it renders exactly the surviving
keypoints of the first pose, and its output does not depend on the poses
beyond the first. -/
theorem c10_overlay_total (p : Platform) (cam : CameraType) (o : Option Orientation)
    (w : ℚ) :
    renderPose p cam o w none = [] ∧
    renderPose p cam o w (some []) = [] ∧
    ∀ (pose : Pose) (rest rest' : List Pose),
      renderPose p cam o w (some (pose :: rest)) =
          renderPose p cam o w (some (pose :: rest')) ∧
      renderPose p cam o w (some (pose :: rest)) =
        (survivingKeypoints pose.keypoints).map (transformKeypoint p cam o w) :=
  ⟨rfl, rfl, fun _ _ _ => ⟨rfl, rfl⟩⟩

/-- C7: a successful iteration reports the frame rate as
`floor(1000 / latency)`; `Nat` division agrees with the real floored
quotient for positive latency, and a latency of 50 ms yields exactly 20. -/
theorem c7_frame_rate (ps : List Pose) (l : Nat) (_pos : 0 < l) :
    (runIteration true true (some ps) l).fpsSet = some (fpsOf l) ∧
    fpsOf l = ⌊(1000 : ℚ) / (l : ℚ)⌋₊ ∧
    fpsOf 50 = 20 := by
  refine ⟨rfl, ?_, rfl⟩
  have h1 : (⌊(1000 : ℚ) / (l : ℚ)⌋₊ : ℕ) = ⌊(1000 : ℚ)⌋₊ / l :=
    Nat.floor_div_nat 1000 l
  simp [fpsOf, h1]

/-- C7 witness: the theorem instantiated at latency 50 ms with an empty
pose list. -/
theorem c7_frame_rate_witness :
    (runIteration true true (some []) 50).fpsSet = some (fpsOf 50) ∧
    fpsOf 50 = ⌊(1000 : ℚ) / ((50 : Nat) : ℚ)⌋₊ ∧
    fpsOf 50 = 20 :=
  c7_frame_rate [] 50 (by decide)

/-- C1: on the error exit paths of a loop iteration an acquired tensor is
never disposed.  With a model and a tensor but a failing `estimatePoses`,
or with a tensor but no model, the iteration performs 0 dispose calls
(the `throw` at line 52 and the rejected await at line 54 both precede
`tf.dispose` at line 58); only the success path disposes exactly once. -/
theorem c1_error_paths_leak :
    (runIteration true true none 50).disposeCalls = 0 ∧
    (runIteration true true none 50).errored = true ∧
    (runIteration false true (some []) 50).disposeCalls = 0 ∧
    (runIteration true true (some []) 50).disposeCalls = 1 := by
  decide

/-- C3 counterexample: after the mount effect has set `tfReady` but before
`createDetector` resolves, the camera — whose `onReady` handler starts the
frame loop — is already shown while no model exists, so the scheduler can
start before the estimator is ready. -/
theorem c3_counterexample :
    cameraShown
        (runMount (List.take 2 (mountSequence Orientation.portraitUp true))
          initialAppState) = true ∧
    (runMount (List.take 2 (mountSequence Orientation.portraitUp true))
        initialAppState).hasModel = false := by
  decide

/-- C3 amended: although the loop may start before the model is ready,
`estimatePoses` is never invoked without a model — an iteration without a
model throws before any estimation, making 0 estimate calls. -/
theorem c3_no_estimate_without_model (ht : Bool) (est : Option (List Pose)) (l : Nat) :
    (runIteration false ht est l).estimateCalls = 0 := rfl

/-- C5 counterexample: on iOS with orientation `unknown` (the initial
state before the orientation query resolves is not portrait either) the
output-tensor width/height are swapped although the device is not in a
landscape orientation, refuting "swaps exactly when in a landscape
orientation on iOS"; moreover, in the claim's scenario configuration
(portrait-up on the mirroring platform, Android) the output tensor is
180×240, not the 180×320 the scenario premise states. -/
theorem c5_counterexample :
    getOutputTensorWidth Platform.ios (some Orientation.unknown) =
      OUTPUT_TENSOR_HEIGHT Platform.ios ∧
    getOutputTensorHeight Platform.ios (some Orientation.unknown) =
      OUTPUT_TENSOR_WIDTH ∧
    isLandscapeOrientation (some Orientation.unknown) = false ∧
    OUTPUT_TENSOR_HEIGHT Platform.ios ≠ OUTPUT_TENSOR_WIDTH ∧
    getOutputTensorWidth Platform.android (some Orientation.portraitUp) = 180 ∧
    getOutputTensorHeight Platform.android (some Orientation.portraitUp) = 240 ∧
    getOutputTensorHeight Platform.android (some Orientation.portraitUp) ≠ 320 := by
  refine ⟨rfl, rfl, rfl, ?_, ?_, ?_, ?_⟩
  · norm_num [OUTPUT_TENSOR_HEIGHT, OUTPUT_TENSOR_WIDTH, IS_IOS]
  · norm_num [getOutputTensorWidth, isPortrait, IS_ANDROID, OUTPUT_TENSOR_WIDTH]
  · norm_num [getOutputTensorHeight, isPortrait, IS_ANDROID, OUTPUT_TENSOR_HEIGHT,
      OUTPUT_TENSOR_WIDTH, IS_IOS]
  · norm_num [getOutputTensorHeight, isPortrait, IS_ANDROID, OUTPUT_TENSOR_HEIGHT,
      OUTPUT_TENSOR_WIDTH, IS_IOS]

/-- C5 amended: the width/height swap applies exactly when the orientation
is not portrait (landscape or unknown) on iOS and never on Android; the
scaling from output-tensor space to preview pixels swaps the target
width/height basis when not in portrait — x scales to the preview width
and y to the preview height in portrait, and to the preview height
resp. width otherwise — so a horizontally centered keypoint in iOS
landscape maps to half the preview height; on Android the output tensor
is 180×240 (180×320 is the iOS shape); and in the spec scenario
(portrait-up, front camera, Android, keypoint x = 90 with score 0.9) the
screen x-coordinate is half the preview width. -/
theorem c5_swap_and_scenario (o : Option Orientation) (w : ℚ) :
    getOutputTensorWidth Platform.ios o =
      (if isPortrait o then OUTPUT_TENSOR_WIDTH else OUTPUT_TENSOR_HEIGHT Platform.ios) ∧
    getOutputTensorWidth Platform.android o = OUTPUT_TENSOR_WIDTH ∧
    getOutputTensorHeight Platform.android o = OUTPUT_TENSOR_HEIGHT Platform.android ∧
    OUTPUT_TENSOR_HEIGHT Platform.android = 240 ∧
    (∀ (p : Platform) (cam : CameraType) (k : Keypoint),
      (transformKeypoint p cam o w k).cx =
        mirroredX p cam (getOutputTensorWidth p o) k.x / getOutputTensorWidth p o *
          (if isPortrait o then w else CAM_PREVIEW_HEIGHT p w) ∧
      (transformKeypoint p cam o w k).cy =
        k.y / getOutputTensorHeight p o *
          (if isPortrait o then CAM_PREVIEW_HEIGHT p w else w)) ∧
    (transformKeypoint Platform.ios CameraType.front (some Orientation.landscapeLeft) w
        ⟨160, 90, some (9 / 10), none⟩).cx = CAM_PREVIEW_HEIGHT Platform.ios w / 2 ∧
    (transformKeypoint Platform.android CameraType.front (some Orientation.portraitUp) w
        ⟨90, 160, some (9 / 10), none⟩).cx = w / 2 := by
  refine ⟨?_, ?_, ?_, ?_, ?_, ?_, ?_⟩
  · simp [getOutputTensorWidth, IS_ANDROID]
  · simp [getOutputTensorWidth, IS_ANDROID]
  · simp [getOutputTensorHeight, IS_ANDROID]
  · norm_num [OUTPUT_TENSOR_HEIGHT, OUTPUT_TENSOR_WIDTH, IS_IOS]
  · intro p cam k
    exact ⟨rfl, rfl⟩
  · simp [transformKeypoint, mirroredX, flipX, mirrorX, IS_ANDROID,
      getOutputTensorWidth, getOutputTensorHeight, isPortrait, OUTPUT_TENSOR_WIDTH,
      OUTPUT_TENSOR_HEIGHT, CAM_PREVIEW_HEIGHT, IS_IOS]
    ring
  · simp [transformKeypoint, mirroredX, flipX, mirrorX, IS_ANDROID,
      getOutputTensorWidth, getOutputTensorHeight, isPortrait, OUTPUT_TENSOR_WIDTH,
      OUTPUT_TENSOR_HEIGHT, CAM_PREVIEW_HEIGHT]
    ring

/-- C2 counterexample: if the cleanup runs while the very first iteration
is in flight (before any animation frame has been scheduled,
`rafId.current = null`), the cleanup's guard does nothing, the iteration
then schedules an animation frame, and the fired frame runs a further
estimation: the estimate count rises from 1 at the cancellation point to 2
afterwards. -/
theorem c2_counterexample :
    runEvents [Ev.startLoop, Ev.cancel] initLoop =
      some { rafId := none, pending := [], inflight := 1, started := true,
             cancelled := true, estimates := 1, nextId := 1 } ∧
    runEvents [Ev.startLoop, Ev.cancel, Ev.iterFinish, Ev.frameFire 1] initLoop =
      some { rafId := some 1, pending := [], inflight := 1, started := true,
             cancelled := true, estimates := 2, nextId := 2 } := by
  decide

theorem loopInv_init : LoopInv initLoop := by
  refine ⟨?_, ?_, ?_, ?_, ?_, ?_⟩ <;> simp [initLoop, LoopInv]

theorem pending_singleton (s : LoopState)
    (h1 : ∀ i ∈ s.pending, s.rafId = some i)
    (h4 : s.inflight + s.pending.length ≤ 1)
    (n : Nat) (hrs : s.rafId = some n) : s.pending.erase n = [] := by
  match hp : s.pending with
  | [] => rfl
  | a :: l =>
    have ha : s.rafId = some a := h1 a (by rw [hp]; exact List.mem_cons_self a l)
    rw [hrs] at ha
    have han : a = n := (Option.some.inj ha).symm
    have hlen : (a :: l).length ≤ 1 := by rw [← hp]; omega
    have hl : l = [] := by
      simp only [List.length_cons] at hlen
      exact List.length_eq_zero.mp (by omega)
    rw [hl, han, List.erase_cons_head]

theorem loopInv_step (e : Ev) (s t : LoopState) (hInv : LoopInv s)
    (hstep : stepEv e s = some t) : LoopInv t := by
  obtain ⟨h1, h2, h3, h4, h5, h6⟩ := hInv
  cases e with
  | startLoop =>
    rw [stepEv] at hstep
    by_cases hs : s.started = true
    · rw [if_pos hs] at hstep; cases hstep
    · rw [if_neg hs] at hstep
      obtain ⟨hz, hp, _, _⟩ := h3 (by simpa using hs)
      cases hstep
      refine ⟨h1, h2, ?_, ?_, fun _ => rfl, h6⟩
      · intro hcon; exact Bool.noConfusion hcon
      · show s.inflight + 1 + s.pending.length ≤ 1
        rw [hz, hp]; decide
  | iterFinish =>
    rw [stepEv] at hstep
    by_cases hz : s.inflight = 0
    · rw [if_pos hz] at hstep; cases hstep
    · rw [if_neg hz] at hstep
      have hstarted : s.started = true := by
        by_contra hns
        exact hz (h3 (by simpa using hns)).1
      by_cases hr : s.rafId = some 0
      · rw [if_pos hr] at hstep
        cases hstep
        refine ⟨h1, ?_, ?_, ?_, h5, h6⟩
        · intro hc
          exact absurd hr (h2 hc)
        · intro hcon; rw [hstarted] at hcon; exact Bool.noConfusion hcon
        · show s.inflight - 1 + s.pending.length ≤ 1
          omega
      · rw [if_neg hr] at hstep
        cases hstep
        have h1le : 1 ≤ s.inflight := Nat.one_le_iff_ne_zero.mpr hz
        have hplen : s.pending = [] :=
          List.length_eq_zero.mp (by omega)
        refine ⟨?_, ?_, ?_, ?_, fun _ => hstarted, ?_⟩
        · intro i hi
          rw [hplen, List.nil_append, List.mem_singleton] at hi
          rw [hi]
        · intro _ hcon
          rw [Option.some.injEq] at hcon
          omega
        · intro hcon; rw [hstarted] at hcon; exact Bool.noConfusion hcon
        · show s.inflight - 1 + (s.pending ++ [s.nextId]).length ≤ 1
          rw [hplen, List.nil_append, List.length_singleton]
          omega
        · show 1 ≤ s.nextId + 1
          omega
  | frameFire i =>
    rw [stepEv] at hstep
    by_cases hmem : i ∈ s.pending
    · rw [if_pos hmem] at hstep
      cases hstep
      have hne : s.pending ≠ [] := by
        intro hc; rw [hc] at hmem; exact absurd hmem (List.not_mem_nil i)
      have hstarted : s.started = true := by
        by_contra hns
        exact hne (h3 (by simpa using hns)).2.1
      have h1le : 1 ≤ s.pending.length :=
        Nat.one_le_iff_ne_zero.mpr (by simpa [List.length_eq_zero] using hne)
      refine ⟨?_, h2, ?_, ?_, h5, h6⟩
      · intro j hj
        exact h1 j (List.mem_of_mem_erase hj)
      · intro hcon; rw [hstarted] at hcon; exact Bool.noConfusion hcon
      · show s.inflight + 1 + (s.pending.erase i).length ≤ 1
        rw [List.length_erase_of_mem hmem]
        omega
    · rw [if_neg hmem] at hstep; cases hstep
  | cancel =>
    rw [stepEv] at hstep
    by_cases hc : s.cancelled = true
    · rw [if_pos hc] at hstep; cases hstep
    · rw [if_neg hc] at hstep
      match hrs : s.rafId with
      | none =>
        rw [hrs] at hstep
        cases hstep
        refine ⟨?_, ?_, ?_, h4, ?_, h6⟩
        · intro i hi
          have hri := h1 i hi
          rw [hrs] at hri
          exact hri
        · intro hcon; exact Bool.noConfusion hcon
        · intro hf
          obtain ⟨a, b, c, _⟩ := h3 hf
          exact ⟨a, b, c, rfl⟩
        · intro hcon; exact absurd rfl hcon
      | some n =>
        have hn : ¬(n = 0) := by
          intro hc0
          exact h2 (by simpa using hc) (by rw [hrs, hc0])
        rw [hrs] at hstep
        simp only [if_neg hn] at hstep
        cases hstep
        have herase : s.pending.erase n = [] := pending_singleton s h1 h4 n hrs
        refine ⟨?_, ?_, ?_, ?_, ?_, h6⟩
        · intro j hj
          rw [herase] at hj
          exact absurd hj (List.not_mem_nil j)
        · intro hcon; exact Bool.noConfusion hcon
        · intro hcon
          have hrnone := (h3 hcon).2.2.2
          rw [hrs] at hrnone
          exact Option.noConfusion hrnone
        · show s.inflight + (s.pending.erase n).length ≤ 1
          rw [herase]
          simp only [List.length_nil]
          omega
        · intro _
          exact h5 (by rw [hrs]; exact fun hcon => Option.noConfusion hcon)

theorem loopInv_run (evs : List Ev) (s t : LoopState) (hInv : LoopInv s)
    (hrun : runEvents evs s = some t) : LoopInv t := by
  induction evs generalizing s with
  | nil => rw [runEvents] at hrun; cases hrun; exact hInv
  | cons e es ih =>
    rw [runEvents] at hrun
    match hstep : stepEv e s with
    | none => rw [hstep] at hrun; cases hrun
    | some s' =>
      rw [hstep] at hrun
      exact ih s' (loopInv_step e s s' hInv hstep) hrun

theorem loopDead_step (e : Ev) (s t : LoopState) (hd : LoopDead s)
    (hstep : stepEv e s = some t) : LoopDead t ∧ t.estimates = s.estimates := by
  obtain ⟨hr, hp, hs, hc⟩ := hd
  cases e with
  | startLoop => simp [stepEv, hs] at hstep
  | iterFinish =>
    rw [stepEv] at hstep
    by_cases hz : s.inflight = 0
    · rw [if_pos hz] at hstep; cases hstep
    · rw [if_neg hz, if_pos hr] at hstep
      cases hstep
      exact ⟨⟨hr, hp, hs, hc⟩, rfl⟩
  | frameFire i =>
    rw [stepEv] at hstep
    rw [hp] at hstep
    simp at hstep
  | cancel => simp [stepEv, hc] at hstep

theorem loopDead_run (evs : List Ev) (s t : LoopState) (hd : LoopDead s)
    (hrun : runEvents evs s = some t) : t.estimates = s.estimates := by
  induction evs generalizing s with
  | nil => rw [runEvents] at hrun; cases hrun; rfl
  | cons e es ih =>
    rw [runEvents] at hrun
    match hstep : stepEv e s with
    | none => rw [hstep] at hrun; cases hrun
    | some s' =>
      rw [hstep] at hrun
      obtain ⟨hd', hest⟩ := loopDead_step e s s' hd hstep
      rw [ih s' hd' hrun, hest]

theorem cancel_makes_dead (s t : LoopState) (hInv : LoopInv s)
    (hne : s.rafId ≠ none) (hstep : stepEv Ev.cancel s = some t) :
    LoopDead t ∧ t.estimates = s.estimates := by
  obtain ⟨h1, h2, h3, h4, h5, h6⟩ := hInv
  rw [stepEv] at hstep
  by_cases hc : s.cancelled = true
  · rw [if_pos hc] at hstep; cases hstep
  · rw [if_neg hc] at hstep
    match hrs : s.rafId with
    | none => exact absurd hrs hne
    | some n =>
      have hn : ¬(n = 0) := by
        intro hc0
        exact h2 (by simpa using hc) (by rw [hrs, hc0])
      rw [hrs] at hstep
      simp only [if_neg hn] at hstep
      cases hstep
      have herase : s.pending.erase n = [] := pending_singleton s h1 h4 n hrs
      exact ⟨⟨rfl, herase,
        h5 (by rw [hrs]; exact fun hcon => Option.noConfusion hcon), rfl⟩, rfl⟩

/-- C2 amended: provided at least one animation frame has already been
scheduled when the cleanup runs (`rafId.current` is non-null), no further
estimation occurs after the cancellation point: every continuation of the
run leaves the estimate count unchanged.  (The counterexample shows this
fails when the cleanup runs during the very first iteration, before any
frame has been scheduled.) -/
theorem c2_cancel_stops_loop (pre post : List Ev) (s s' t : LoopState)
    (hpre : runEvents pre initLoop = some s)
    (hne : s.rafId ≠ none)
    (hcancel : stepEv Ev.cancel s = some s')
    (hpost : runEvents post s' = some t) :
    t.estimates = s.estimates := by
  have hInv : LoopInv s := loopInv_run pre initLoop s loopInv_init hpre
  obtain ⟨hd, hest⟩ := cancel_makes_dead s s' hInv hne hcancel
  rw [loopDead_run post s' t hd hpost, hest]

/-- C2 amended witness: start the loop, let the first iteration finish and
schedule frame 1, then cancel; the dead state admits no further events, so
the estimate count stays at 1. -/
theorem c2_cancel_stops_loop_witness :
    ({ rafId := some 0, pending := [], inflight := 0, started := true,
       cancelled := true, estimates := 1, nextId := 2 } : LoopState).estimates =
      ({ rafId := some 1, pending := [1], inflight := 0, started := true,
         cancelled := false, estimates := 1, nextId := 2 } : LoopState).estimates :=
  c2_cancel_stops_loop [Ev.startLoop, Ev.iterFinish] []
    { rafId := some 1, pending := [1], inflight := 0, started := true,
      cancelled := false, estimates := 1, nextId := 2 }
    { rafId := some 0, pending := [], inflight := 0, started := true,
      cancelled := true, estimates := 1, nextId := 2 }
    { rafId := some 0, pending := [], inflight := 0, started := true,
      cancelled := true, estimates := 1, nextId := 2 }
    (by decide) (by decide) (by decide) (by decide)

/-- C8: in every reachable state of the frame-loop protocol at most one
iteration is between tensor acquisition and disposal, i.e. at most one
ImageTensor is in flight at any instant — never two.  (In fact the number
in flight plus the number of scheduled-but-unfired frames is at most 1,
which is the strict seriality of the pipeline.) -/
theorem c8_at_most_one_inflight (evs : List Ev) (s : LoopState)
    (hrun : runEvents evs initLoop = some s) :
    s.inflight + s.pending.length ≤ 1 := by
  have hInv : LoopInv s := loopInv_run evs initLoop s loopInv_init hrun
  exact hInv.2.2.2.1

/-- C8 witness: a concrete three-event run (start, finish and schedule,
frame fires) ends with exactly one tensor in flight. -/
theorem c8_at_most_one_inflight_witness :
    ({ rafId := some 1, pending := [], inflight := 1, started := true,
       cancelled := false, estimates := 2, nextId := 2 } : LoopState).inflight +
      ({ rafId := some 1, pending := [], inflight := 1, started := true,
         cancelled := false, estimates := 2, nextId := 2 } : LoopState).pending.length ≤ 1 :=
  c8_at_most_one_inflight [Ev.startLoop, Ev.iterFinish, Ev.frameFire 1]
    { rafId := some 1, pending := [], inflight := 1, started := true,
      cancelled := false, estimates := 2, nextId := 2 }
    (by decide)

end PostOp
